import Mathlib

/-
Verification of the regression-and-inference core of the Product-prediction
dashboard (src/app.py).

The program, in order:
  * builds a 30-row table `df` of five numeric columns
    (production, yield, productivity, workforce, hour)          (lines 53-61);
  * `df_clean = df.drop(drop_indices, errors='ignore').reset_index(drop=True)`
    with `drop_indices = [16, 19, 22]`                          (lines 64-65);
  * fits `model = sm.OLS(y, X).fit()` where
    `X = sm.add_constant(df_clean[['yield','productivity','workforce','hour']])`
    and `y = df_clean['production']`                            (lines 67-70);
  * for the slider inputs builds
    `input_data = {'const': 1.0, 'yield': .., 'productivity': .., 'workforce': .., 'hour': ..}`
    and reads `mean`, `obs_ci_lower`, `obs_ci_upper` from
    `model.get_prediction(input_data).summary_frame(alpha=0.05)` (lines 98-104).

The embedding below follows the statsmodels implementation of these calls:
  * OLS coefficients are `pinv(X) @ y`; when `XᵀX` is invertible this equals
    `(XᵀX)⁻¹ Xᵀ y`, the formula used here.  (Mathlib's matrix inverse is total
    with `A⁻¹ = 0` for singular `A`; claims about coefficient *values* are only
    made where `XᵀX` is invertible, while claims about error behaviour do not
    depend on the values.)
  * `df_resid = nobs - rank(X)` and `scale = ssr / df_resid`.
  * `summary_frame` returns `mean = x0 · β`,
    `mean_ci = mean ∓ tc · sqrt(var_pred_mean)` and
    `obs_ci = mean ∓ tc · sqrt(var_pred_mean + scale)`, where
    `var_pred_mean = x0ᵀ (scale · (XᵀX)⁻¹) x0` and `tc` is the two-sided
    Student-t critical value `scipy.stats.t.ppf(1 - alpha/2, df_resid)`.
    The t quantile is a transcendental function external to the program; it
    enters every formula as a single opaque real, so the embedding takes it
    (or the quantile function `tppf : alpha -> df -> critical value`) as an
    explicit parameter.

Real-valued floating point arithmetic is modelled by `ℝ`.
-/

open Matrix

/-- One historical record of the table built at lines 55-61: four numeric
predictors and one numeric outcome. -/
structure Observation where
  production : ℝ
  yield : ℝ
  productivity : ℝ
  workforce : ℝ
  hour : ℝ
deriving Inhabited

/-- The static exclusion configuration, line 64 of src/app.py. -/
def drop_indices : List ℕ := [16, 19, 22]

/-- Line 65: `df.drop(exclude, errors='ignore').reset_index(drop=True)`.
With the default `RangeIndex 0..n-1`, pandas removes every row whose index is
a member of `exclude`; `errors='ignore'` silently skips labels that are not
present (out-of-range indices); `reset_index(drop=True)` renumbers the
survivors `0..m-1` keeping their order.  Equivalently: keep, in order, the
rows at the in-range indices not listed in `exclude`. -/
def df_clean (df : List Observation) (exclude : List ℕ) : List Observation :=
  ((List.range df.length).filter (fun i => decide (i ∉ exclude))).map
    (fun i => df.getD i default)

/-- Number of exclusion indices that actually hit a row: members of `exclude`
that are in range `[0, n)`, counted without multiplicity. -/
def valid_excluded (n : ℕ) (exclude : List ℕ) : ℕ :=
  ((List.range n).filter (fun i => decide (i ∈ exclude))).length

-- Helper lemmas about `df_clean`.

theorem length_filter_mem_add_not_mem (l : List ℕ) (exclude : List ℕ) :
    ((l.filter (fun i => decide (i ∉ exclude))).length
      + (l.filter (fun i => decide (i ∈ exclude))).length) = l.length := by
  induction l with
  | nil => rfl
  | cons a t ih =>
    by_cases h : a ∈ exclude <;> simp [List.filter_cons, h] at ih ⊢ <;> omega

theorem df_clean_length (df : List Observation) (exclude : List ℕ) :
    (df_clean df exclude).length = df.length - valid_excluded df.length exclude := by
  have h := length_filter_mem_add_not_mem (List.range df.length) exclude
  simp only [df_clean, valid_excluded, List.length_map]
  simp only [List.length_range] at h
  omega

theorem map_getD_range (df : List Observation) :
    (List.range df.length).map (fun i => df.getD i default) = df := by
  apply List.ext_getElem
  · simp
  · intro i h1 h2
    simp [List.getD_eq_getElem?_getD, List.getElem?_eq_getElem h2]

theorem df_clean_sublist (df : List Observation) (exclude : List ℕ) :
    (df_clean df exclude).Sublist df := by
  conv_rhs => rw [← map_getD_range df]
  exact (List.filter_sublist _).map _

theorem df_clean_oob_noop (df : List Observation) (exclude : List ℕ) :
    df_clean df (exclude.filter (fun j => decide (j < df.length)))
      = df_clean df exclude := by
  unfold df_clean
  congr 1
  apply List.filter_congr
  intro i hi
  simp only [List.mem_range] at hi
  simp [List.mem_filter, hi]

theorem df_clean_mem_of_not_excluded (df : List Observation) (exclude : List ℕ)
    (i : ℕ) (hi : i < df.length) (hex : i ∉ exclude) :
    df.getD i default ∈ df_clean df exclude := by
  unfold df_clean
  exact List.mem_map.mpr ⟨i, List.mem_filter.mpr ⟨List.mem_range.mpr hi, by simpa⟩, rfl⟩

-- The regression engine: statsmodels OLS as invoked at lines 67-70, and the
-- prediction path of lines 98-104.

noncomputable section

/-- Model of `sm.add_constant` (line 69): prepend a constant-1.0 column/entry. -/
def add_constant {k : ℕ} (v : Fin k → ℝ) : Fin (k + 1) → ℝ :=
  Fin.cons 1 v

/-- The predictor columns of one record, in the column order fixed at line 67:
`['yield', 'productivity', 'workforce', 'hour']`. -/
def obs_predictors (o : Observation) : Fin 4 → ℝ :=
  ![o.yield, o.productivity, o.workforce, o.hour]

/-- One row of the design matrix `X = sm.add_constant(df_clean[cols])`
(lines 67-69): the intercept 1.0 followed by the predictors. -/
def design_row (o : Observation) : Fin 5 → ℝ :=
  add_constant (obs_predictors o)

/-- The design matrix `X` of lines 67-69. -/
def design_matrix (df : List Observation) : Matrix (Fin df.length) (Fin 5) ℝ :=
  Matrix.of fun i j => design_row (df.getD i default) j

/-- The outcome vector `y = df_clean['production']` (line 68). -/
def outcome (df : List Observation) : Fin df.length → ℝ :=
  fun i => (df.getD i default).production

variable {m : ℕ}

/-- Coefficients `model.params`: statsmodels computes `pinv(X) @ y`, which equals
`(XᵀX)⁻¹ Xᵀ y` whenever `XᵀX` is invertible (the generic case for this
program's data).  Mathlib's `⁻¹` is total, so this definition is as well. -/
def ols_params (X : Matrix (Fin m) (Fin 5) ℝ) (y : Fin m → ℝ) : Fin 5 → ℝ :=
  (Xᵀ * X)⁻¹ *ᵥ (Xᵀ *ᵥ y)

/-- Residuals `model.resid = y - X @ params`. -/
def resid (X : Matrix (Fin m) (Fin 5) ℝ) (y : Fin m → ℝ) : Fin m → ℝ :=
  y - X *ᵥ ols_params X y

/-- Residual sum of squares `model.ssr`. -/
def ssr (X : Matrix (Fin m) (Fin 5) ℝ) (y : Fin m → ℝ) : ℝ :=
  resid X y ⬝ᵥ resid X y

/-- Degrees of freedom `model.df_resid = nobs - rank(X)` (statsmodels uses the numerical matrix
rank; in the embedding, the mathematical rank). -/
def df_resid (X : Matrix (Fin m) (Fin 5) ℝ) : ℕ :=
  m - X.rank

/-- Residual variance `model.scale = ssr / df_resid`, the variance estimate σ̂². -/
def scale (X : Matrix (Fin m) (Fin 5) ℝ) (y : Fin m → ℝ) : ℝ :=
  ssr X y / (df_resid X : ℝ)

/-- Unscaled covariance `model.normalized_cov_params = (XᵀX)⁻¹` (for a full-rank design). -/
def normalized_cov (X : Matrix (Fin m) (Fin 5) ℝ) : Matrix (Fin 5) (Fin 5) ℝ :=
  (Xᵀ * X)⁻¹

/-- Scaled covariance `model.cov_params() = scale * normalized_cov_params`. -/
def cov_params (X : Matrix (Fin m) (Fin 5) ℝ) (y : Fin m → ℝ) :
    Matrix (Fin 5) (Fin 5) ℝ :=
  scale X y • normalized_cov X

/-- Variance of the predicted mean in `get_prediction` at augmented input `x0`,
`x0ᵀ (scale · (XᵀX)⁻¹) x0` — this is σ̂² · h0 with `h0` the leverage. -/
def var_pred_mean (X : Matrix (Fin m) (Fin 5) ℝ) (y : Fin m → ℝ)
    (x0 : Fin 5 → ℝ) : ℝ :=
  x0 ⬝ᵥ (cov_params X y *ᵥ x0)

/-- The leverage `h0 = x0ᵀ (XᵀX)⁻¹ x0` of an augmented input row. -/
def leverage (X : Matrix (Fin m) (Fin 5) ℝ) (x0 : Fin 5 → ℝ) : ℝ :=
  x0 ⬝ᵥ (normalized_cov X *ᵥ x0)

/-- Standard error of the estimated mean response (`mean_se`). -/
def se_mean (X : Matrix (Fin m) (Fin 5) ℝ) (y : Fin m → ℝ) (x0 : Fin 5 → ℝ) : ℝ :=
  Real.sqrt (var_pred_mean X y x0)

/-- Standard error for a new observation: statsmodels adds the residual
variance before taking the square root (`obs_se = sqrt(var_pred_mean + scale)`). -/
def se_obs (X : Matrix (Fin m) (Fin 5) ℝ) (y : Fin m → ℝ) (x0 : Fin 5 → ℝ) : ℝ :=
  Real.sqrt (var_pred_mean X y x0 + scale X y)

/-- Point estimate `predicted_mean = x0 · params`. -/
def predicted_mean (X : Matrix (Fin m) (Fin 5) ℝ) (y : Fin m → ℝ)
    (x0 : Fin 5 → ℝ) : ℝ :=
  x0 ⬝ᵥ ols_params X y

/-- The columns of `summary_frame(alpha)` used by this program (line 100).
`tc` is the opaque Student-t critical value `t.ppf(1 - alpha/2, df_resid)`. -/
structure SummaryFrame where
  mean : ℝ
  mean_ci_lower : ℝ
  mean_ci_upper : ℝ
  obs_ci_lower : ℝ
  obs_ci_upper : ℝ

/-- Model of `predictions.summary_frame(alpha)` (line 100): the mean-response interval
uses `se_mean`, the observation interval uses `se_obs`, both at the same
critical value `tc`. -/
def summary_frame (tc : ℝ) (X : Matrix (Fin m) (Fin 5) ℝ) (y : Fin m → ℝ)
    (x0 : Fin 5 → ℝ) : SummaryFrame :=
  { mean := predicted_mean X y x0
    mean_ci_lower := predicted_mean X y x0 - tc * se_mean X y x0
    mean_ci_upper := predicted_mean X y x0 + tc * se_mean X y x0
    obs_ci_lower := predicted_mean X y x0 - tc * se_obs X y x0
    obs_ci_upper := predicted_mean X y x0 + tc * se_obs X y x0 }

/-- The triple the program reports. -/
structure PredictionResult where
  mean : ℝ
  lower : ℝ
  upper : ℝ

/-- Lines 102-104: `pred_val = pred_df['mean'][0]`,
`lower_val = pred_df['obs_ci_lower'][0]`, `upper_val = pred_df['obs_ci_upper'][0]` —
the program reads the observation-level interval columns. -/
def prediction_result (tc : ℝ) (X : Matrix (Fin m) (Fin 5) ℝ) (y : Fin m → ℝ)
    (x0 : Fin 5 → ℝ) : PredictionResult :=
  { mean := (summary_frame tc X y x0).mean
    lower := (summary_frame tc X y x0).obs_ci_lower
    upper := (summary_frame tc X y x0).obs_ci_upper }

/-- The fields of the statsmodels results object that this program reads. -/
structure FittedModel (m : ℕ) where
  params : Fin 5 → ℝ
  scale : ℝ
  df_resid : ℕ
  normalized_cov : Matrix (Fin 5) (Fin 5) ℝ

/-- Model of `sm.OLS(y, X).fit()` (line 70). -/
def ols_fit (X : Matrix (Fin m) (Fin 5) ℝ) (y : Fin m → ℝ) : FittedModel m :=
  { params := ols_params X y
    scale := scale X y
    df_resid := df_resid X
    normalized_cov := normalized_cov X }

/-- The error conditions the pipeline of lines 64-70 detects.  There are none:
`df.drop(..., errors='ignore')` suppresses missing labels, and
`sm.OLS(y, X).fit()` solves through the Moore-Penrose pseudoinverse with no
condition-number or pivot check, so no shape-consistent input makes the
pipeline raise.  Hence this error type is empty. -/
inductive FitError : Type

/-- The call `sm.OLS(y, X).fit()` viewed as a fallible operation: it returns a results
object on every input (singular designs included); `FitError` is empty. -/
def ols_fit_checked (X : Matrix (Fin m) (Fin 5) ℝ) (y : Fin m → ℝ) :
    Except FitError (FittedModel m) :=
  Except.ok (ols_fit X y)

-- The application-level prediction path (lines 98-104).

/-- The four slider values (lines 82-85): one value per predictor, no
intercept supplied. -/
structure PredictionRequest where
  yield : ℝ
  productivity : ℝ
  workforce : ℝ
  hour : ℝ

/-- Line 98: `input_data = {'const': 1.0, 'yield': .., 'productivity': ..,
'workforce': .., 'hour': ..}` — the program itself prepends the constant
1.0 to the caller's four predictor values, in the fitting column order. -/
def input_data (r : PredictionRequest) : Fin 5 → ℝ :=
  ![1, r.yield, r.productivity, r.workforce, r.hour]

/-- The caller-supplied part of `input_data`: the four predictor values in
design-matrix column order. -/
def req_predictors (r : PredictionRequest) : Fin 4 → ℝ :=
  ![r.yield, r.productivity, r.workforce, r.hour]

/-- The prediction path with the significance level `a` exposed as if
`summary_frame(alpha=a)` were configurable; `tppf a df` stands for
`scipy.stats.t.ppf(1 - a/2, df)`. -/
def app_predict_at (a : ℝ) (tppf : ℝ → ℕ → ℝ) (ds : List Observation)
    (r : PredictionRequest) : PredictionResult :=
  prediction_result (tppf a (df_resid (design_matrix (df_clean ds drop_indices))))
    (design_matrix (df_clean ds drop_indices))
    (outcome (df_clean ds drop_indices))
    (input_data r)

/-- The prediction path exactly as the program runs it (lines 64-104): clean
with `drop_indices`, fit, predict at the hard-coded `alpha=0.05` of line 100.
Its arguments are the historical table, the slider values and the external
t-quantile; nothing else reaches the computation. -/
def app_predict (tppf : ℝ → ℕ → ℝ) (ds : List Observation)
    (r : PredictionRequest) : PredictionResult :=
  prediction_result (tppf 0.05 (df_resid (design_matrix (df_clean ds drop_indices))))
    (design_matrix (df_clean ds drop_indices))
    (outcome (df_clean ds drop_indices))
    (input_data r)

end

-- Algebraic helper: the mean-prediction variance is σ̂² times the leverage.

theorem var_pred_mean_eq_scale_mul_leverage {m : ℕ} (X : Matrix (Fin m) (Fin 5) ℝ)
    (y : Fin m → ℝ) (x0 : Fin 5 → ℝ) :
    var_pred_mean X y x0 = scale X y * leverage X x0 := by
  unfold var_pred_mean cov_params leverage
  rw [Matrix.smul_mulVec_assoc, Matrix.dotProduct_smul, smul_eq_mul]

/-- C1: for every fitted model and prediction input, the interval the program
reports (lines 102-104) is the observation-level prediction interval: its
lower and upper bounds are the `obs_ci` columns of the summary frame, and its
half-width is `tc · sqrt(σ̂² · (1 + h0))` with `h0 = x0ᵀ(XᵀX)⁻¹x0` — the
variance term is `σ̂² · (1 + h0)`, not the mean-response term `σ̂² · h0`. -/
theorem c1_observation_level_interval (tc : ℝ) {m : ℕ}
    (X : Matrix (Fin m) (Fin 5) ℝ) (y : Fin m → ℝ) (x0 : Fin 5 → ℝ) :
    (prediction_result tc X y x0).upper - (prediction_result tc X y x0).mean
        = tc * Real.sqrt (scale X y * (1 + leverage X x0))
      ∧ (prediction_result tc X y x0).mean - (prediction_result tc X y x0).lower
        = tc * Real.sqrt (scale X y * (1 + leverage X x0))
      ∧ (prediction_result tc X y x0).lower = (summary_frame tc X y x0).obs_ci_lower
      ∧ (prediction_result tc X y x0).upper = (summary_frame tc X y x0).obs_ci_upper := by
  have hv : var_pred_mean X y x0 + scale X y = scale X y * (1 + leverage X x0) := by
    rw [var_pred_mean_eq_scale_mul_leverage]; ring
  refine ⟨?_, ?_, rfl, rfl⟩ <;>
    simp only [prediction_result, summary_frame, se_obs, hv] <;> ring

/-- C2: `df_clean` removes exactly the records whose index is in the exclusion
set and in range: the survivor count is `n` minus the number of in-range
excluded indices; out-of-range indices are a silent no-op; the survivors are a
sublist of the input (original relative order, reindexed contiguously); and
every record at a non-excluded in-range index survives. -/
theorem c2_clean_semantics (df : List Observation) (exclude : List ℕ) :
    (df_clean df exclude).length = df.length - valid_excluded df.length exclude
      ∧ df_clean df (exclude.filter (fun j => decide (j < df.length)))
          = df_clean df exclude
      ∧ (df_clean df exclude).Sublist df
      ∧ ∀ i, i < df.length → i ∉ exclude →
          df.getD i default ∈ df_clean df exclude :=
  ⟨df_clean_length df exclude, df_clean_oob_noop df exclude,
    df_clean_sublist df exclude,
    fun i hi hex => df_clean_mem_of_not_excluded df exclude i hi hex⟩

theorem c2_witness :
    (df_clean (List.replicate 3 (default : Observation)) [1, 5]).length = 2
      ∧ (default : Observation)
          ∈ df_clean (List.replicate 3 (default : Observation)) [1, 5] := by
  have h := c2_clean_semantics (List.replicate 3 (default : Observation)) [1, 5]
  refine ⟨?_, ?_⟩
  · rw [h.1]; decide
  · exact h.2.2.2 0 (by decide) (by decide)

/-- C3 counterexample: on a dataset of 5 = k+1 records with nothing excluded,
`df_clean` returns all 5 records — a value, not an `InsufficientDataError`,
even though 5 < k+2 = 6 — and `sm.OLS(...).fit()` then runs on it and
produces a results object. -/
theorem c3_counterexample :
    (df_clean (List.replicate 5 (default : Observation)) []).length = 5
      ∧ 5 < 4 + 2
      ∧ (ols_fit_checked
          (design_matrix (df_clean (List.replicate 5 (default : Observation)) []))
          (outcome (df_clean (List.replicate 5 (default : Observation)) []))).isOk
        = true := by
  refine ⟨?_, by norm_num, rfl⟩
  decide

/-- C3 amended: the cleaning step performs no data-sufficiency check.  For
every dataset and exclusion list it returns the surviving records (however
few), and the fit that follows runs unconditionally — the pipeline has no
`InsufficientDataError` (no error at all, `FitError` being empty). -/
theorem c3_amended_no_sufficiency_check (df : List Observation) (exclude : List ℕ) :
    (df_clean df exclude).length = df.length - valid_excluded df.length exclude
      ∧ (ols_fit_checked (design_matrix (df_clean df exclude))
          (outcome (df_clean df exclude))).isOk = true :=
  ⟨df_clean_length df exclude, rfl⟩

/-- C4: when the design matrix has full column rank 5 = k+1 (the spec's
condition for `fit` to succeed, cf. C5), the residual degrees of freedom
`nobs - rank` equal `m - (k+1)`; and for the program's configuration — a
30-row table with `drop_indices = [16, 19, 22]` — 27 rows survive cleaning,
so `df_resid = 27 - 5 = 22`. -/
theorem c4_residual_degrees_of_freedom {m : ℕ} (X : Matrix (Fin m) (Fin 5) ℝ)
    (ds : List Observation) (hrank : X.rank = 5) (hds : ds.length = 30) :
    df_resid X = m - 5
      ∧ (df_clean ds drop_indices).length = 27
      ∧ (m = 27 → df_resid X = 22) := by
  have h1 : df_resid X = m - 5 := by rw [df_resid, hrank]
  have h2 : (df_clean ds drop_indices).length = 27 := by
    have h := df_clean_length ds drop_indices
    rw [hds] at h
    have hval : valid_excluded 30 drop_indices = 3 := by decide
    rw [hval] at h
    exact h
  exact ⟨h1, h2, fun hm => by rw [h1, hm]⟩

theorem c4_witness :
    df_resid (1 : Matrix (Fin 5) (Fin 5) ℝ) = 0
      ∧ (df_clean (List.replicate 30 (default : Observation)) drop_indices).length
        = 27 := by
  have h := c4_residual_degrees_of_freedom (1 : Matrix (Fin 5) (Fin 5) ℝ)
    (List.replicate 30 (default : Observation))
    (by rw [Matrix.rank_one]; simp) (by simp)
  exact ⟨h.1, h.2.1⟩

/-- A two-record dataset whose yield column is constantly 1, perfectly
collinear with the intercept column, so that `XᵀX` is singular. -/
def sing_dataset : List Observation :=
  [⟨0, 1, 0, 0, 0⟩, ⟨1, 1, 1, 1, 1⟩]

/-- C5 counterexample: on `sing_dataset` the Gram matrix `XᵀX` is singular
(determinant exactly 0), yet `sm.OLS(...).fit()` returns a results object —
there is no `SingularDesignError` and no detection of the degeneracy. -/
theorem c5_counterexample :
    ((design_matrix sing_dataset)ᵀ * design_matrix sing_dataset).det = 0
      ∧ (ols_fit_checked (design_matrix sing_dataset)
          (outcome sing_dataset)).isOk = true := by
  refine ⟨?_, rfl⟩
  by_contra hdet
  have hu : IsUnit ((design_matrix sing_dataset)ᵀ * design_matrix sing_dataset) :=
    (Matrix.isUnit_iff_isUnit_det _).mpr (isUnit_iff_ne_zero.mpr hdet)
  have h5 : ((design_matrix sing_dataset)ᵀ * design_matrix sing_dataset).rank = 5 := by
    rw [Matrix.rank_of_isUnit _ hu]
    simp
  have hle : ((design_matrix sing_dataset)ᵀ * design_matrix sing_dataset).rank ≤ 2 := by
    rw [Matrix.rank_transpose_mul_self]
    exact Matrix.rank_le_height _
  omega

/-- C5 amended: the fit step performs no singularity detection at all:
`sm.OLS(y, X).fit()` returns a (pseudoinverse-based) results object on every
design matrix, singular ones included; the pipeline's error type is empty, so
no `SingularDesignError` exists to be raised. -/
theorem c5_amended_no_singularity_check {m : ℕ} (X : Matrix (Fin m) (Fin 5) ℝ)
    (y : Fin m → ℝ) :
    ols_fit_checked X y = Except.ok (ols_fit X y) ∧ ∀ _e : FitError, False :=
  ⟨rfl, fun e => by cases e⟩

/-- C6: whenever the Student-t critical value is non-negative (as
`t.ppf(1 - alpha/2, df)` is for every confidence level in (0,1)), the reported
interval brackets the point estimate: `lower ≤ mean ≤ upper`. -/
theorem c6_interval_ordering (tc : ℝ) {m : ℕ} (X : Matrix (Fin m) (Fin 5) ℝ)
    (y : Fin m → ℝ) (x0 : Fin 5 → ℝ) (htc : 0 ≤ tc) :
    (prediction_result tc X y x0).lower ≤ (prediction_result tc X y x0).mean
      ∧ (prediction_result tc X y x0).mean ≤ (prediction_result tc X y x0).upper := by
  have hw : 0 ≤ tc * se_obs X y x0 := mul_nonneg htc (Real.sqrt_nonneg _)
  constructor
  · simp only [prediction_result, summary_frame]
    linarith
  · simp only [prediction_result, summary_frame]
    linarith

theorem c6_witness :
    (prediction_result 2 (0 : Matrix (Fin 1) (Fin 5) ℝ) (fun _ => 1) 0).lower
        ≤ (prediction_result 2 (0 : Matrix (Fin 1) (Fin 5) ℝ) (fun _ => 1) 0).mean
      ∧ (prediction_result 2 (0 : Matrix (Fin 1) (Fin 5) ℝ) (fun _ => 1) 0).mean
        ≤ (prediction_result 2 (0 : Matrix (Fin 1) (Fin 5) ℝ) (fun _ => 1) 0).upper :=
  c6_interval_ordering 2 (0 : Matrix (Fin 1) (Fin 5) ℝ) (fun _ => 1) 0 (by norm_num)

/-- C7: the prediction path of lines 98-104 is a pure function of the fitted
model's data, the slider values and the external t-quantile — it reads no
hidden mutable state, so evaluating it twice on equal inputs yields identical
PredictionResult values. -/
theorem c7_predict_deterministic (tppf : ℝ → ℕ → ℝ) (ds : List Observation)
    (r1 r2 : PredictionRequest) (h : r1 = r2) :
    app_predict tppf ds r1 = app_predict tppf ds r2 := by
  rw [h]

theorem c7_witness :
    app_predict (fun _ _ => 2) [] ⟨1, 1, 1, 1⟩
      = app_predict (fun _ _ => 2) [] ⟨1, 1, 1, 1⟩ :=
  c7_predict_deterministic (fun _ _ => 2) [] ⟨1, 1, 1, 1⟩ ⟨1, 1, 1, 1⟩ rfl

/-- C8: for a fixed model and input, a strictly larger t critical value (the
quantile `t.ppf(1 - alpha/2, df)` strictly increases when the confidence level
increases) gives a strictly wider interval, provided the prediction variance
`var_pred_mean + scale` is positive (so the interval is not degenerate). -/
theorem c8_monotone_in_confidence (tc1 tc2 : ℝ) {m : ℕ}
    (X : Matrix (Fin m) (Fin 5) ℝ) (y : Fin m → ℝ) (x0 : Fin 5 → ℝ)
    (hlt : tc1 < tc2) (hv : 0 < var_pred_mean X y x0 + scale X y) :
    (prediction_result tc1 X y x0).upper - (prediction_result tc1 X y x0).mean
        < (prediction_result tc2 X y x0).upper - (prediction_result tc2 X y x0).mean
      ∧ (prediction_result tc1 X y x0).mean - (prediction_result tc1 X y x0).lower
        < (prediction_result tc2 X y x0).mean - (prediction_result tc2 X y x0).lower
      ∧ (prediction_result tc1 X y x0).upper - (prediction_result tc1 X y x0).lower
        < (prediction_result tc2 X y x0).upper - (prediction_result tc2 X y x0).lower := by
  have hs : 0 < se_obs X y x0 := Real.sqrt_pos.mpr hv
  have hmul : tc1 * se_obs X y x0 < tc2 * se_obs X y x0 :=
    (mul_lt_mul_right hs).mpr hlt
  refine ⟨?_, ?_, ?_⟩ <;> simp only [prediction_result, summary_frame] <;> linarith

theorem c8_witness :
    (prediction_result 1 (0 : Matrix (Fin 1) (Fin 5) ℝ) (fun _ => 1) 0).upper
        - (prediction_result 1 (0 : Matrix (Fin 1) (Fin 5) ℝ) (fun _ => 1) 0).lower
      < (prediction_result 2 (0 : Matrix (Fin 1) (Fin 5) ℝ) (fun _ => 1) 0).upper
        - (prediction_result 2 (0 : Matrix (Fin 1) (Fin 5) ℝ) (fun _ => 1) 0).lower := by
  have h0 : var_pred_mean (0 : Matrix (Fin 1) (Fin 5) ℝ) (fun _ => 1) 0 = 0 := by
    simp [var_pred_mean]
  have hscale : scale (0 : Matrix (Fin 1) (Fin 5) ℝ) (fun _ => 1) = 1 := by
    simp [scale, ssr, resid, df_resid, Matrix.zero_mulVec, Matrix.rank_zero,
      Matrix.dotProduct]
  have hv : 0 < var_pred_mean (0 : Matrix (Fin 1) (Fin 5) ℝ) (fun _ => 1) 0
      + scale (0 : Matrix (Fin 1) (Fin 5) ℝ) (fun _ => 1) := by
    rw [h0, hscale]; norm_num
  exact (c8_monotone_in_confidence 1 2 (0 : Matrix (Fin 1) (Fin 5) ℝ)
    (fun _ => 1) 0 (by norm_num) hv).2.2

/-- C9: the caller-facing request is the four predictor values in design
order with no intercept; the program itself builds the augmented row
`[1.0, yield, productivity, workforce, hour]` (line 98), exactly the
`add_constant` convention used for the design matrix at fitting time. -/
theorem c9_augmented_row_convention (r : PredictionRequest) (o : Observation) :
    input_data r = add_constant (req_predictors r)
      ∧ input_data r 0 = 1
      ∧ (∀ j : Fin 4, input_data r j.succ = req_predictors r j)
      ∧ design_row o = add_constant (obs_predictors o)
      ∧ design_row o 0 = 1
      ∧ (∀ j : Fin 4, design_row o j.succ = obs_predictors o j) := by
  refine ⟨rfl, rfl, fun j => ?_, rfl, rfl, fun j => ?_⟩
  · simp [input_data, add_constant, req_predictors]
  · simp [design_row, add_constant]

/-- C10: the program's prediction path calls `summary_frame` with the
hard-coded `alpha = 0.05` of line 100 — equivalently confidence 0.95 — for
every request; its interface (`tppf`, the table, the four slider values)
carries no confidence parameter, so no other level is reachable. -/
theorem c10_alpha_fixed_at_005 (tppf : ℝ → ℕ → ℝ) (ds : List Observation)
    (r : PredictionRequest) :
    app_predict tppf ds r = app_predict_at (1 - 0.95) tppf ds r
      ∧ app_predict tppf ds r = app_predict_at 0.05 tppf ds r := by
  have h : (1 - 0.95 : ℝ) = 0.05 := by norm_num
  rw [h]
  exact ⟨rfl, rfl⟩
